import Mathlib

/-!
Shallow embedding of `app/services/comparison_chat.py` from the Grizzly
repository, for checking the natural-language specification against the code.

The embedded core is `ComparisonChatService`: agent construction
(`create_agent`), prompt assembly (`initialize_components`) and the three
delivery-mode entry points (`query_agent`, `query_agent_ws`,
`query_agent_async`).  External collaborators (the langchain agent executor,
the ORKG client) and repository modules absent from the sources
(`app/models/chat.py`, `app/services/agents/handlers.py`,
`app/services/agents/pandas.py`) are modelled from the specification where
they decide a claim; each such definition says so in its doc comment.
-/

deriving instance DecidableEq for Except

namespace Grizzly

/-! ## Tables (the comparison dataframe) -/

/-- A pandas dataframe as fetched by `compare_dataframe`: row labels
(`index`), column labels (`columns`) and row-major cell data. -/
structure Table where
  index : List String
  columns : List String
  data : List (List String)
  deriving DecidableEq, Repr

/-- Dataframe transposition, `df.T`: swap the two axes. -/
def Table.T (t : Table) : Table :=
  { index := t.columns, columns := t.index, data := t.data.transpose }

/-- Pandas `DataFrame.to_dict()`: the nested key-value document
column-label -> (index-label -> cell value). -/
def Table.to_dict (t : Table) : List (String × List (String × Option String)) :=
  t.columns.enum.map fun jc =>
    (jc.2, t.index.enum.map fun ir => (ir.2, (t.data.get? ir.1).bind (·.get? jc.1)))

/-! ## Configuration and external environment -/

/-- The fields of `app.core.config.settings` used by the service. -/
structure Settings where
  ORKG_HOST : String
  OPENAI_API_KEY : String
  VERBOSE : Bool

/-- The external dataset source together with process settings: the
environment the service runs against.  `compare_dataframe` stands for
`orkg_client.contributions.compare_dataframe`, an external ORKG call that
returns a dataframe for a comparison id. -/
structure Env where
  settings : Settings
  compare_dataframe : String → Table

/-! ## Models and handlers -/

/-- `CHAT_MODELS` from `comparison_chat.py` lines 21-28. -/
def CHAT_MODELS : List String :=
  ["gpt-4", "gpt-3.5-turbo", "gpt-3.5-turbo-16k", "gpt-3.5-turbo-0613",
   "gpt-3.5-turbo-16k-0613", "gpt-4-32k"]

/-- Which langchain LLM class was instantiated. -/
inductive LLMClass
  | ChatOpenAI
  | OpenAI
  deriving DecidableEq, Repr

/-- The constructed LLM object: class plus the keyword arguments passed at
construction (`streaming=True, openai_api_key=..., model_name=model`). -/
structure LLM where
  cls : LLMClass
  streaming : Bool
  openai_api_key : String
  model_name : String
  deriving DecidableEq, Repr

/-- The two stream-handler classes from `app.services.agents.handlers`
(module absent from the sources; only the identity of the class matters to
the claims, their behaviour is modelled from the spec further below). -/
inductive StreamHandler
  | WSStreamThoughtsAndAnswerHandler
  | AsyncStreamThoughtsAndAnswerHandler
  deriving DecidableEq, Repr

/-- A langchain callback manager holding its handler list:
`BaseCallbackManager([h])` (synchronous) or `AsyncCallbackManager([h])`. -/
inductive CallbackManager
  | BaseCallbackManager (handlers : List StreamHandler)
  | AsyncCallbackManager (handlers : List StreamHandler)
  deriving DecidableEq, Repr

/-- The handlers held by a callback manager. -/
def CallbackManager.handlers : CallbackManager → List StreamHandler
  | .BaseCallbackManager hs => hs
  | .AsyncCallbackManager hs => hs

/-! ## Agent kinds and errors -/

/-- Modelled from the spec: `AgentKind` lives in `app/models/chat.py`, which
is absent from the sources.  The spec fixes the closed set of strategy tags
as TABULAR (the code's `DATAFRAME`) and STRUCTURED (the code's `JSON`);
`OTHER tag` stands for any tag value outside that closed set, reaching the
wildcard arm of the `match` in `create_agent`. -/
inductive AgentKind
  | DATAFRAME
  | JSON
  | OTHER (tag : String)
  deriving DecidableEq, Repr

/-- The string interpolated into the wildcard arm's error message. -/
def AgentKind.tagString : AgentKind → String
  | .DATAFRAME => "dataframe"
  | .JSON => "json"
  | .OTHER t => t

/-- Errors raised synchronously by agent construction.  The
`NotImplementedError` of the wildcard `match` arm is the spec's
`UnsupportedVariant`. -/
inductive ChatError
  | NotImplementedError (msg : String)
  deriving DecidableEq, Repr

/-- Failures of a reasoning run (spec taxonomy `ReasoningFailure` /
`ExecutionTimeout`). -/
inductive ReasoningError
  | ReasoningFailure (cause : String)
  | ExecutionTimeout
  deriving DecidableEq, Repr

/-! ## Agent executors -/

/-- The per-variant payload of an agent executor: the pandas dataframe agent
(`create_custom_pandas_dataframe_agent`) or the json agent
(`create_json_agent` over a `JsonToolkit`). -/
structure JsonSpec where
  dict_ : List (String × List (String × Option String))
  max_value_length : Nat
  deriving DecidableEq, Repr

structure JsonToolkit where
  spec : JsonSpec
  deriving DecidableEq, Repr

inductive AgentTool
  | pandasDataframe (df : Table) (agent_type : String)
      (include_df_in_prompt : Bool) (return_intermediate_steps : Bool)
  | jsonToolkitTool (toolkit : JsonToolkit)
  deriving DecidableEq, Repr

/-- A configured langchain `AgentExecutor` as built in `create_agent`:
the LLM, the variant payload and the executor keyword arguments.
`max_execution_time` is `some 1` only where the source passes
`max_execution_time=1`; the pandas builder
(`app/services/agents/pandas.py`, absent from the sources) is modelled from
the spec as setting no execution budget for the TABULAR variant. -/
structure AgentExecutor where
  llm : LLM
  tool : AgentTool
  verbose : Bool
  handle_parsing_errors : Bool
  callback_manager : Option CallbackManager
  max_execution_time : Option Nat
  deriving DecidableEq, Repr

/-! ## Observable effects -/

/-- External side effects performed by the service, in order:
the ORKG dataset fetch (`compare_dataframe`) and a reasoning backend run
(`agent.run` / `agent.arun` on a prompt). -/
inductive Effect
  | fetchDataset (comparison_id : String)
  | backendCall (prompt : String)
  deriving DecidableEq, Repr

/-! ## create_agent (comparison_chat.py lines 59-142) -/

/-- Shallow embedding of `ComparisonChatService.create_agent`.  Returns the
ordered list of external effects performed together with the result: the
configured agent executor paired with the stream handler, or the raised
error.  The handler/manager selection, LLM-class selection, dataset fetch
and the `match` over the agent kind follow the source line by line. -/
def create_agent (env : Env) (comparison_id : String) (model : String)
    (agent_kind : AgentKind) (async_agent : Bool)
    (websocket : Option Unit) (ws_manager : Option Unit) :
    List Effect × Except ChatError (AgentExecutor × StreamHandler) :=
  let handlerPair : StreamHandler × Option CallbackManager :=
    if websocket.isSome && ws_manager.isSome then
      (StreamHandler.WSStreamThoughtsAndAnswerHandler,
       some (CallbackManager.BaseCallbackManager
         [StreamHandler.WSStreamThoughtsAndAnswerHandler]))
    else
      (StreamHandler.AsyncStreamThoughtsAndAnswerHandler,
       if async_agent then
         some (CallbackManager.AsyncCallbackManager
           [StreamHandler.AsyncStreamThoughtsAndAnswerHandler])
       else none)
  let stream_handler := handlerPair.1
  let handler_manager := handlerPair.2
  let llm_model := if model ∈ CHAT_MODELS then LLMClass.ChatOpenAI else LLMClass.OpenAI
  let llm : LLM :=
    { cls := llm_model
      streaming := true
      openai_api_key := env.settings.OPENAI_API_KEY
      model_name := model }
  let comparison := (env.compare_dataframe comparison_id).T
  ([Effect.fetchDataset comparison_id],
    match agent_kind with
    | AgentKind.DATAFRAME =>
        Except.ok
          ({ llm := llm
             tool := AgentTool.pandasDataframe comparison
               "ZERO_SHOT_REACT_DESCRIPTION" true false
             verbose := env.settings.VERBOSE
             handle_parsing_errors := true
             callback_manager := handler_manager
             max_execution_time := none },
           stream_handler)
    | AgentKind.JSON =>
        let json_spec : JsonSpec :=
          { dict_ := (comparison.T).to_dict
            max_value_length := if llm.cls ≠ LLMClass.ChatOpenAI then 4000 else 13000 }
        let json_toolkit : JsonToolkit := { spec := json_spec }
        Except.ok
          ({ llm := llm
             tool := AgentTool.jsonToolkitTool json_toolkit
             verbose := env.settings.VERBOSE
             handle_parsing_errors := true
             callback_manager := handler_manager
             max_execution_time := some 1 },
           stream_handler)
    | k => Except.error
        (ChatError.NotImplementedError ("Unknown agent kind: " ++ k.tagString)))

/-- `ComparisonChatService.initialize_agent`, which only delegates to
`create_agent`. -/
def initialize_agent (env : Env) (comparison_id : String) (model : String)
    (agent_kind : AgentKind) (async_agent : Bool)
    (websocket : Option Unit) (ws_manager : Option Unit) :
    List Effect × Except ChatError (AgentExecutor × StreamHandler) :=
  create_agent env comparison_id model agent_kind async_agent websocket ws_manager

/-! ## Reasoning backend run semantics (external collaborator) -/

/-- A python value returned by the agent run, normalized via `__str__` by
the service before being handed to the caller. -/
inductive PyObj
  | pyStr (s : String)
  | pyInt (n : Int)
  deriving DecidableEq, Repr

/-- Python's `__str__`. -/
def PyObj.toStr : PyObj → String
  | .pyStr s => s
  | .pyInt n => toString n

/-- One possible behaviour of the external reasoning backend for a run: the
intermediate thoughts it would produce in order, the wall-clock time the run
would take (in the same units as `max_execution_time`), and its final
outcome (an answer object, or a failure cause). -/
structure BackendBehavior where
  thoughts : List String
  time : Nat
  final : Except String PyObj
  deriving DecidableEq, Repr

/-- An event delivered to a stream handler during a run. -/
structure SinkEvent where
  handler : StreamHandler
  text : String
  deriving DecidableEq, Repr

/-- Modelled from the spec: execution of a configured agent
(`agent.run` / `agent.arun`, an external langchain collaborator).  Each
intermediate thought is delivered in order to every handler of the bound
callback manager (no manager: no delivery); the run then completes with the
backend's final answer, fails with `ReasoningFailure` on a backend error, or
fails with `ExecutionTimeout` when a `max_execution_time` budget is set and
the run exceeds it. -/
def runAgentExecutor (backend : BackendBehavior) (agent : AgentExecutor) :
    List SinkEvent × Except ReasoningError PyObj :=
  let handlers : List StreamHandler :=
    match agent.callback_manager with
    | none => []
    | some m => m.handlers
  let delivered := handlers.flatMap fun h =>
    backend.thoughts.map fun t => { handler := h, text := t }
  let outcome : Except ReasoningError PyObj :=
    match agent.max_execution_time with
    | some budget =>
        if budget < backend.time then Except.error ReasoningError.ExecutionTimeout
        else match backend.final with
          | .ok a => Except.ok a
          | .error c => Except.error (ReasoningError.ReasoningFailure c)
    | none =>
        match backend.final with
        | .ok a => Except.ok a
        | .error c => Except.error (ReasoningError.ReasoningFailure c)
  (delivered, outcome)

/-! ## Prompt assembly (initialize_components, lines 242-282) -/

/-- The fixed instructional template prepended to every query
(`comparison_chat.py` lines 260-281, the triple-quoted literal verbatim). -/
def prompt_template : String :=
  "\n            This is a table of data extracted from the ORKG that represents a comparison of several research papers.\n            The rows are properties of the papers, and the columns are the papers (contributions) themselves.\n\n            The questions will need you to look into the values, sometimes across multiple columns.\n            The cells could contain multiple values and not just a single value.\n\n            If there is a date in there you might need to parse it to find answers about the year or the month.\n\n            If you do not know the answer, reply as follows:\n            \"Sorry!, I do not know.\"\n\n            Return all output as a string.\n\n            Lets think step by step.\n\n            Below is the query.\n            Query:\n            "

/-- Shallow embedding of `ComparisonChatService.initialize_components`:
build the agent, then prepend the fixed template to the user query. -/
def initialize_components (env : Env) (comparison_id query model : String)
    (agent_kind : AgentKind) (async_agent : Bool)
    (websocket : Option Unit) (ws_manager : Option Unit) :
    List Effect × Except ChatError (AgentExecutor × String × StreamHandler) :=
  let r := initialize_agent env comparison_id model agent_kind async_agent websocket ws_manager
  (r.1, r.2.map fun ah => (ah.1, prompt_template ++ query, ah.2))

/-! ## The three delivery-mode entry points -/

/-- Shallow embedding of `ComparisonChatService.query_agent` (blocking mode,
lines 174-201): build components with `async_agent=False` and no websocket,
run the agent synchronously, and return `response.__str__()`.  The first
component of the inner pair records every event a stream handler delivered
during the run. -/
def query_agent (env : Env) (backend : BackendBehavior)
    (comparison_id query model : String) (agent_kind : AgentKind) :
    List Effect × Except ChatError (List SinkEvent × Except ReasoningError String) :=
  match initialize_components env comparison_id query model agent_kind false none none with
  | (effs, .error e) => (effs, .error e)
  | (effs, .ok (agent, prompt, _)) =>
      let r := runAgentExecutor backend agent
      (effs ++ [Effect.backendCall prompt],
       .ok (r.1, r.2.map PyObj.toStr))

/-- Shallow embedding of `ComparisonChatService.query_agent_ws` (push mode,
lines 203-240): build components with the websocket and manager bound and
`async_agent=False`, await `agent.arun(prompt)`, return
`response.__str__()`. -/
def query_agent_ws (env : Env) (backend : BackendBehavior)
    (comparison_id query model : String) (agent_kind : AgentKind) :
    List Effect × Except ChatError (List SinkEvent × Except ReasoningError String) :=
  match initialize_components env comparison_id query model agent_kind false
      (some ()) (some ()) with
  | (effs, .error e) => (effs, .error e)
  | (effs, .ok (agent, prompt, _)) =>
      let r := runAgentExecutor backend agent
      (effs ++ [Effect.backendCall prompt],
       .ok (r.1, r.2.map PyObj.toStr))

/-- Modelled from the spec: `action_logs()` of
`AsyncStreamThoughtsAndAnswerHandler` (`app/services/agents/handlers.py`,
absent from the sources) — the PullSink's lazy sequence: each `Thought` in
order, then on success the final `Answer`; on failure the sequence
terminates after the thoughts. -/
def action_logs (thoughts : List String) (final : Except ReasoningError PyObj) :
    List String :=
  match final with
  | .ok a => thoughts ++ [a.toStr]
  | .error _ => thoughts

/-- One step observable from the `query_agent_async` async generator, in
order: the background task is launched (`asyncio.create_task`), a log is
yielded to the consumer, the task's completion handle is awaited (where a
deferred failure surfaces). -/
inductive PullItem
  | taskLaunched (prompt : String)
  | yielded (log : String)
  | awaitedTask (outcome : Except ReasoningError Unit)
  deriving DecidableEq, Repr

/-- Shallow embedding of `ComparisonChatService.query_agent_async` (pull
mode, lines 144-172) as the ordered trace of its generator: launch the
backend task, yield every log of the handler's `action_logs()` sequence,
then `await task`. -/
def query_agent_async (env : Env) (backend : BackendBehavior)
    (comparison_id query model : String) (agent_kind : AgentKind) :
    List Effect × Except ChatError (List PullItem) :=
  match initialize_components env comparison_id query model agent_kind true none none with
  | (effs, .error e) => (effs, .error e)
  | (effs, .ok (agent, prompt, stream_handler)) =>
      let r := runAgentExecutor backend agent
      let logs := action_logs
        (r.1.filterMap fun ev =>
          if ev.handler = stream_handler then some ev.text else none)
        r.2
      (effs ++ [Effect.backendCall prompt],
       .ok (PullItem.taskLaunched prompt ::
            (logs.map PullItem.yielded ++
             [PullItem.awaitedTask (r.2.map fun _ => ())])))

/-- The prompts of the reasoning backend calls in an effect trace. -/
def executedPrompts (effs : List Effect) : List String :=
  effs.filterMap fun e =>
    match e with
    | Effect.backendCall p => some p
    | _ => none

/-! ## Concrete sample inputs (used by witnesses and counterexamples) -/

def sampleTable : Table :=
  { index := ["P1", "P2"]
    columns := ["method", "year", "result"]
    data := [["X", "2019", "0.81"], ["Y", "2020-01-02", "0.77"]] }

def sampleEnv : Env :=
  { settings :=
      { ORKG_HOST := "https://incubating.orkg.org/"
        OPENAI_API_KEY := "k"
        VERBOSE := false }
    compare_dataframe := fun _ => sampleTable }

def sampleBackend : BackendBehavior :=
  { thoughts := ["t1"], time := 0, final := Except.ok (PyObj.pyStr "ans") }

/-- A backend behaviour that would take 2 wall-clock units: exceeds the
STRUCTURED variant's budget of 1. -/
def slowBackend : BackendBehavior :=
  { thoughts := ["t1"], time := 2, final := Except.ok (PyObj.pyStr "late") }

/-! ## Claims -/

/-- Claim C1, counterexample: with an unsupported strategy tag the request
does fail with the `NotImplementedError` (`UnsupportedVariant`), but the
external dataset fetch has already happened — the effect trace of the
failing call contains `fetchDataset`, refuting "before any external dataset
fetch occurs". -/
theorem c1_claim_counterexample :
    (create_agent sampleEnv "cmp-1" "gpt-4" (AgentKind.OTHER "weird") true none none).1
      = [Effect.fetchDataset "cmp-1"] ∧
    (create_agent sampleEnv "cmp-1" "gpt-4" (AgentKind.OTHER "weird") true none none).2
      = Except.error (ChatError.NotImplementedError "Unknown agent kind: weird") :=
  ⟨rfl, rfl⟩

/-- Claim C1 (amended): for every call with a strategy tag outside the
closed set, each of the three entry points fails with the
`NotImplementedError` (`UnsupportedVariant`) and triggers no reasoning
backend call — but the external dataset fetch has already occurred: the
effect trace of the failed request is exactly `[fetchDataset id]`. -/
theorem c1_unsupported_variant_after_fetch (env : Env) (backend : BackendBehavior)
    (comparison_id query model tag : String) :
    query_agent env backend comparison_id query model (AgentKind.OTHER tag)
      = ([Effect.fetchDataset comparison_id],
         Except.error (ChatError.NotImplementedError ("Unknown agent kind: " ++ tag))) ∧
    query_agent_ws env backend comparison_id query model (AgentKind.OTHER tag)
      = ([Effect.fetchDataset comparison_id],
         Except.error (ChatError.NotImplementedError ("Unknown agent kind: " ++ tag))) ∧
    query_agent_async env backend comparison_id query model (AgentKind.OTHER tag)
      = ([Effect.fetchDataset comparison_id],
         Except.error (ChatError.NotImplementedError ("Unknown agent kind: " ++ tag))) :=
  ⟨rfl, rfl, rfl⟩

/-- Claim C3: every STRUCTURED (JSON) build carries the hard execution
budget `max_execution_time = 1`, under which a run whose wall-clock time
exceeds the budget fails with `ExecutionTimeout` (and not with a partial
answer); the TABULAR (DATAFRAME) build carries no execution budget. -/
theorem c3_structured_budget_tabular_none (env : Env) (backend : BackendBehavior)
    (comparison_id model : String) (a : Bool) (w wm : Option Unit) :
    (∃ agent h,
      (create_agent env comparison_id model AgentKind.JSON a w wm).2
        = Except.ok (agent, h) ∧
      agent.max_execution_time = some 1 ∧
      (1 < backend.time →
        (runAgentExecutor backend agent).2 = Except.error ReasoningError.ExecutionTimeout)) ∧
    (∃ agent h,
      (create_agent env comparison_id model AgentKind.DATAFRAME a w wm).2
        = Except.ok (agent, h) ∧
      agent.max_execution_time = none) := by
  refine ⟨⟨_, _, rfl, rfl, fun ht => ?_⟩, ⟨_, _, rfl, rfl⟩⟩
  simp only [runAgentExecutor]
  rw [if_pos ht]

/-- Claim C3, witness: at a concrete environment and a backend taking 2
units of wall-clock time, the STRUCTURED budget is 1 and the run times
out, while the TABULAR build has no budget. -/
theorem c3_witness :
    (∃ agent h,
      (create_agent sampleEnv "cmp-1" "gpt-4" AgentKind.JSON true none none).2
        = Except.ok (agent, h) ∧
      agent.max_execution_time = some 1 ∧
      (1 < slowBackend.time →
        (runAgentExecutor slowBackend agent).2 = Except.error ReasoningError.ExecutionTimeout)) ∧
    (∃ agent h,
      (create_agent sampleEnv "cmp-1" "gpt-4" AgentKind.DATAFRAME true none none).2
        = Except.ok (agent, h) ∧
      agent.max_execution_time = none) :=
  c3_structured_budget_tabular_none sampleEnv slowBackend "cmp-1" "gpt-4" true none none

/-- Claim C4: every STRUCTURED (JSON) build hands the session the fetched
comparison table transposed and then flattened to the nested key-value
document (`comparison.T.to_dict()`), with per-field truncation
`max_value_length` equal to 13000 when the model is one of the chat models
(so the LLM is the `ChatOpenAI` class) and 4000 otherwise. -/
theorem c4_structured_transpose_flatten_truncation (env : Env)
    (comparison_id model : String) (a : Bool) (w wm : Option Unit) :
    ∃ agent h,
      (create_agent env comparison_id model AgentKind.JSON a w wm).2
        = Except.ok (agent, h) ∧
      agent.tool = AgentTool.jsonToolkitTool
        { spec :=
          { dict_ := (((env.compare_dataframe comparison_id).T).T).to_dict
            max_value_length := if model ∈ CHAT_MODELS then 13000 else 4000 } } ∧
      agent.llm.cls
        = (if model ∈ CHAT_MODELS then LLMClass.ChatOpenAI else LLMClass.OpenAI) := by
  by_cases hm : model ∈ CHAT_MODELS <;>
    exact ⟨_, _, rfl, by simp [create_agent, hm], by simp [create_agent, hm]⟩

/-- Claim C7: the builder's match over the strategy tags is exhaustive over
exactly the two supported tags — it returns a configured session paired
with a stream handler precisely when the tag is DATAFRAME (TABULAR) or
JSON (STRUCTURED) — and whenever the built session carries a callback
manager, that manager holds exactly the returned handler. -/
theorem c7_selector_exhaustive (env : Env) (comparison_id model : String)
    (a : Bool) (w wm : Option Unit) (agent_kind : AgentKind) :
    ((∃ r, (create_agent env comparison_id model agent_kind a w wm).2 = Except.ok r) ↔
      (agent_kind = AgentKind.DATAFRAME ∨ agent_kind = AgentKind.JSON)) ∧
    (∀ agent h,
      (create_agent env comparison_id model agent_kind a w wm).2 = Except.ok (agent, h) →
      ∀ m, agent.callback_manager = some m → m.handlers = [h]) := by
  cases agent_kind with
  | DATAFRAME =>
      refine ⟨⟨fun _ => Or.inl rfl, fun _ => ⟨_, rfl⟩⟩, fun agent h heq m hm => ?_⟩
      cases w <;> cases wm <;> cases a <;>
        (simp [create_agent] at heq
         obtain ⟨ha, hh⟩ := heq
         subst hh
         rw [← ha] at hm
         dsimp only at hm
         first
         | (injection hm with hm1
            subst hm1
            rfl)
         | exact absurd hm (by simp))
  | JSON =>
      refine ⟨⟨fun _ => Or.inr rfl, fun _ => ⟨_, rfl⟩⟩, fun agent h heq m hm => ?_⟩
      cases w <;> cases wm <;> cases a <;>
        (simp [create_agent] at heq
         obtain ⟨ha, hh⟩ := heq
         subst hh
         rw [← ha] at hm
         dsimp only at hm
         first
         | (injection hm with hm1
            subst hm1
            rfl)
         | exact absurd hm (by simp))
  | OTHER tag =>
      refine ⟨⟨fun ⟨r, hr⟩ => by simp [create_agent] at hr, fun hk => by cases hk <;> simp_all⟩,
        fun agent h heq => by simp [create_agent] at heq⟩

/-- Claim C7, witness: at a concrete call the equivalence and the
handler-binding property hold for the DATAFRAME tag. -/
theorem c7_witness :
    ((∃ r, (create_agent sampleEnv "cmp-1" "gpt-4" AgentKind.DATAFRAME true none none).2
        = Except.ok r) ↔
      (AgentKind.DATAFRAME = AgentKind.DATAFRAME ∨
       AgentKind.DATAFRAME = AgentKind.JSON)) ∧
    (∀ agent h,
      (create_agent sampleEnv "cmp-1" "gpt-4" AgentKind.DATAFRAME true none none).2
        = Except.ok (agent, h) →
      ∀ m, agent.callback_manager = some m → m.handlers = [h]) :=
  c7_selector_exhaustive sampleEnv "cmp-1" "gpt-4" true none none AgentKind.DATAFRAME

/-- Claim C9: when both the websocket and the websocket manager are
supplied, the websocket push handler is bound through the synchronous
`BaseCallbackManager` regardless of the `async_agent` flag; otherwise the
async pull handler is chosen, bound through an `AsyncCallbackManager` when
`async_agent` is true and left unbound (no callback manager) when it is
false. -/
theorem c9_handler_selection (env : Env) (comparison_id model : String)
    (a : Bool) (w wm : Option Unit) (agent_kind : AgentKind)
    (hk : agent_kind = AgentKind.DATAFRAME ∨ agent_kind = AgentKind.JSON) :
    ∃ agent h,
      (create_agent env comparison_id model agent_kind a w wm).2
        = Except.ok (agent, h) ∧
      (w.isSome ∧ wm.isSome →
        h = StreamHandler.WSStreamThoughtsAndAnswerHandler ∧
        agent.callback_manager
          = some (CallbackManager.BaseCallbackManager [h])) ∧
      (¬(w.isSome ∧ wm.isSome) →
        h = StreamHandler.AsyncStreamThoughtsAndAnswerHandler ∧
        agent.callback_manager
          = (if a then some (CallbackManager.AsyncCallbackManager [h]) else none)) := by
  cases hk <;> subst_vars <;> cases w <;> cases wm <;> cases a <;>
    exact ⟨_, _, rfl, by simp [create_agent], by simp [create_agent]⟩

/-- Claim C9, witness: with both websocket arguments supplied and
`async_agent = false`, the websocket handler is bound through the
synchronous manager. -/
theorem c9_witness :
    ∃ agent h,
      (create_agent sampleEnv "cmp-1" "gpt-4" AgentKind.DATAFRAME false
          (some ()) (some ())).2
        = Except.ok (agent, h) ∧
      ((some ()).isSome ∧ (some ()).isSome →
        h = StreamHandler.WSStreamThoughtsAndAnswerHandler ∧
        agent.callback_manager
          = some (CallbackManager.BaseCallbackManager [h])) ∧
      (¬((some ()).isSome ∧ (some ()).isSome) →
        h = StreamHandler.AsyncStreamThoughtsAndAnswerHandler ∧
        agent.callback_manager
          = (if false then some (CallbackManager.AsyncCallbackManager [h]) else none)) :=
  c9_handler_selection sampleEnv "cmp-1" "gpt-4" false (some ()) (some ())
    AgentKind.DATAFRAME (Or.inl rfl)

/-- Claim C10: model selection is total — for every model name the build
succeeds and constructs an LLM with `streaming = true`, whose class is
`ChatOpenAI` exactly for names in `CHAT_MODELS` and the completion class
`OpenAI` for every other name. -/
theorem c10_model_selection_total (env : Env) (comparison_id model : String)
    (a : Bool) (w wm : Option Unit) (agent_kind : AgentKind)
    (hk : agent_kind = AgentKind.DATAFRAME ∨ agent_kind = AgentKind.JSON) :
    ∃ agent h,
      (create_agent env comparison_id model agent_kind a w wm).2
        = Except.ok (agent, h) ∧
      agent.llm
        = { cls := if model ∈ CHAT_MODELS then LLMClass.ChatOpenAI else LLMClass.OpenAI
            streaming := true
            openai_api_key := env.settings.OPENAI_API_KEY
            model_name := model } := by
  cases hk <;> subst_vars <;> exact ⟨_, _, rfl, rfl⟩

/-- Claim C10, witness: an unrecognized model name still yields a
constructed LLM, falling back to the completion class with streaming
enabled. -/
theorem c10_witness :
    ∃ agent h,
      (create_agent sampleEnv "cmp-1" "some-unknown-model" AgentKind.DATAFRAME true
          none none).2
        = Except.ok (agent, h) ∧
      agent.llm
        = { cls := if "some-unknown-model" ∈ CHAT_MODELS then LLMClass.ChatOpenAI
              else LLMClass.OpenAI
            streaming := true
            openai_api_key := sampleEnv.settings.OPENAI_API_KEY
            model_name := "some-unknown-model" } :=
  c10_model_selection_total sampleEnv "cmp-1" "some-unknown-model" true none none
    AgentKind.DATAFRAME (Or.inl rfl)


/-- Helper: structural facts about a pull trace of the generator shape
`taskLaunched :: yields ++ [awaitedTask]`: the launch is first, the await
of the completion handle is last, and no await occurs anywhere earlier. -/
theorem pullTraceShape (p : String) (logs : List String)
    (outcome : Except ReasoningError Unit) :
    (PullItem.taskLaunched p ::
      (logs.map PullItem.yielded ++ [PullItem.awaitedTask outcome])).head?
        = some (PullItem.taskLaunched p) ∧
    (PullItem.taskLaunched p ::
      (logs.map PullItem.yielded ++ [PullItem.awaitedTask outcome])).getLast?
        = some (PullItem.awaitedTask outcome) ∧
    ∀ i ∈ (PullItem.taskLaunched p ::
      (logs.map PullItem.yielded ++ [PullItem.awaitedTask outcome])).dropLast,
      ∀ o, i ≠ PullItem.awaitedTask o := by
  refine ⟨rfl, ?_, ?_⟩
  · rw [← List.cons_append, List.getLast?_concat]
  · rw [← List.cons_append, List.dropLast_concat]
    intro i hi o
    rcases List.mem_cons.mp hi with h1 | h2
    · subst h1; simp
    · rcases List.mem_map.mp h2 with ⟨l, _, hl⟩
      subst hl; simp

/-- Claim C2: in pull mode the generator trace launches the background
reasoning task first, then yields the lazy sequence's logs, and awaits the
task's completion handle exactly once, after the sequence is exhausted —
any deferred failure of the task surfaces at that final await (for the
default DATAFRAME kind it is exactly the backend's failure) and at no
earlier point of the trace. -/
theorem c2_pull_awaits_after_exhaustion (env : Env) (backend : BackendBehavior)
    (comparison_id query model : String) (agent_kind : AgentKind)
    (items : List PullItem)
    (h : (query_agent_async env backend comparison_id query model agent_kind).2
          = Except.ok items) :
    ∃ (logs : List String) (outcome : Except ReasoningError Unit),
      items = PullItem.taskLaunched (prompt_template ++ query) ::
        (logs.map PullItem.yielded ++ [PullItem.awaitedTask outcome]) ∧
      items.head? = some (PullItem.taskLaunched (prompt_template ++ query)) ∧
      items.getLast? = some (PullItem.awaitedTask outcome) ∧
      (∀ i ∈ items.dropLast, ∀ o, i ≠ PullItem.awaitedTask o) ∧
      (∀ c, backend.final = Except.error c → agent_kind = AgentKind.DATAFRAME →
        outcome = Except.error (ReasoningError.ReasoningFailure c)) := by
  cases agent_kind with
  | OTHER tag =>
      simp [query_agent_async, initialize_components, initialize_agent, create_agent, Except.map] at h
  | DATAFRAME =>
      injection h with hi
      refine ⟨_, _, hi.symm, ?_⟩
      rw [hi.symm]
      refine ⟨(pullTraceShape _ _ _).1, (pullTraceShape _ _ _).2.1,
        (pullTraceShape _ _ _).2.2, ?_⟩
      intro c hc _
      simp [runAgentExecutor, Except.map, hc]
  | JSON =>
      injection h with hi
      refine ⟨_, _, hi.symm, ?_⟩
      rw [hi.symm]
      refine ⟨(pullTraceShape _ _ _).1, (pullTraceShape _ _ _).2.1,
        (pullTraceShape _ _ _).2.2, ?_⟩
      intro c hc hk
      exact absurd hk (by simp)

/-- Claim C2, witness: at a concrete environment and backend the pull
trace has the launch-yields-await shape. -/
theorem c2_witness :
    ((query_agent_async sampleEnv sampleBackend "cmp-1" "q" "gpt-4"
        AgentKind.DATAFRAME).2
      = Except.ok
          [PullItem.taskLaunched (prompt_template ++ "q"), PullItem.yielded "t1",
           PullItem.yielded "ans", PullItem.awaitedTask (Except.ok ())]) ∧
    (∃ (logs : List String) (outcome : Except ReasoningError Unit),
      [PullItem.taskLaunched (prompt_template ++ "q"), PullItem.yielded "t1",
       PullItem.yielded "ans", PullItem.awaitedTask (Except.ok ())]
        = PullItem.taskLaunched (prompt_template ++ "q") ::
          (logs.map PullItem.yielded ++ [PullItem.awaitedTask outcome]) ∧
      [PullItem.taskLaunched (prompt_template ++ "q"), PullItem.yielded "t1",
       PullItem.yielded "ans", PullItem.awaitedTask (Except.ok ())].head?
        = some (PullItem.taskLaunched (prompt_template ++ "q")) ∧
      [PullItem.taskLaunched (prompt_template ++ "q"), PullItem.yielded "t1",
       PullItem.yielded "ans", PullItem.awaitedTask (Except.ok ())].getLast?
        = some (PullItem.awaitedTask outcome) ∧
      (∀ i ∈ [PullItem.taskLaunched (prompt_template ++ "q"), PullItem.yielded "t1",
         PullItem.yielded "ans", PullItem.awaitedTask (Except.ok ())].dropLast,
        ∀ o, i ≠ PullItem.awaitedTask o) ∧
      (∀ c, sampleBackend.final = Except.error c →
        AgentKind.DATAFRAME = AgentKind.DATAFRAME →
        outcome = Except.error (ReasoningError.ReasoningFailure c))) :=
  ⟨rfl, c2_pull_awaits_after_exhaustion sampleEnv sampleBackend "cmp-1" "q" "gpt-4"
      AgentKind.DATAFRAME _ rfl⟩

/-- Claim C5: in blocking mode no stream handler receives any event — the
caller is never exposed to a Thought — and a successful return is exactly
the backend's final answer object normalized to a string via `__str__`. -/
theorem c5_blocking_no_thoughts (env : Env) (backend : BackendBehavior)
    (comparison_id query model : String) (agent_kind : AgentKind)
    (delivered : List SinkEvent) (ans : Except ReasoningError String)
    (h : (query_agent env backend comparison_id query model agent_kind).2
          = Except.ok (delivered, ans)) :
    delivered = [] ∧
    (∀ s, ans = Except.ok s → ∃ a, backend.final = Except.ok a ∧ s = a.toStr) := by
  cases agent_kind with
  | OTHER tag =>
      simp [query_agent, initialize_components, initialize_agent, create_agent, Except.map] at h
  | DATAFRAME =>
      cases hfin : backend.final with
      | ok a =>
          simp [query_agent, initialize_components, initialize_agent, create_agent,
            runAgentExecutor, Except.map, hfin] at h
          obtain ⟨h1, h2⟩ := h
          subst h1; subst h2
          exact ⟨rfl, fun s hs => ⟨a, rfl, (Except.ok.inj hs).symm⟩⟩
      | error c =>
          simp [query_agent, initialize_components, initialize_agent, create_agent,
            runAgentExecutor, Except.map, hfin] at h
          obtain ⟨h1, h2⟩ := h
          subst h1; subst h2
          exact ⟨rfl, fun s hs => Except.noConfusion hs⟩
  | JSON =>
      by_cases ht : 1 < backend.time
      · simp [query_agent, initialize_components, initialize_agent, create_agent,
          runAgentExecutor, Except.map, ht] at h
        obtain ⟨h1, h2⟩ := h
        subst h1; subst h2
        exact ⟨rfl, fun s hs => Except.noConfusion hs⟩
      · cases hfin : backend.final with
        | ok a =>
            simp [query_agent, initialize_components, initialize_agent, create_agent,
              runAgentExecutor, Except.map, ht, hfin] at h
            obtain ⟨h1, h2⟩ := h
            subst h1; subst h2
            exact ⟨rfl, fun s hs => ⟨a, rfl, (Except.ok.inj hs).symm⟩⟩
        | error c =>
            simp [query_agent, initialize_components, initialize_agent, create_agent,
              runAgentExecutor, Except.map, ht, hfin] at h
            obtain ⟨h1, h2⟩ := h
            subst h1; subst h2
            exact ⟨rfl, fun s hs => Except.noConfusion hs⟩

/-- Claim C5, witness: at a concrete environment and backend the blocking
entry point exposes no sink event and returns the normalized answer. -/
theorem c5_witness :
    ([] : List SinkEvent) = [] ∧
    (∀ s, (Except.ok "ans" : Except ReasoningError String) = Except.ok s →
      ∃ a, sampleBackend.final = Except.ok a ∧ s = a.toStr) :=
  c5_blocking_no_thoughts sampleEnv sampleBackend "cmp-1" "q" "gpt-4"
    AgentKind.DATAFRAME [] (Except.ok "ans") rfl

/-- Claim C8: in push mode every delivered event goes to the websocket
push handler and the delivered texts are exactly the backend's thoughts in
order (out-of-band delivery through the channel); a successful return is
the backend's final answer normalized to a string, and a reasoning failure
of the awaited run is the backend's own failure, propagated. -/
theorem c8_push_answer_and_thoughts (env : Env) (backend : BackendBehavior)
    (comparison_id query model : String) (agent_kind : AgentKind)
    (delivered : List SinkEvent) (ans : Except ReasoningError String)
    (h : (query_agent_ws env backend comparison_id query model agent_kind).2
          = Except.ok (delivered, ans)) :
    delivered = backend.thoughts.map
      (fun t => { handler := StreamHandler.WSStreamThoughtsAndAnswerHandler, text := t }) ∧
    (∀ s, ans = Except.ok s → ∃ a, backend.final = Except.ok a ∧ s = a.toStr) ∧
    (∀ c, ans = Except.error (ReasoningError.ReasoningFailure c) →
      backend.final = Except.error c) := by
  cases agent_kind with
  | OTHER tag =>
      simp [query_agent_ws, initialize_components, initialize_agent, create_agent, Except.map] at h
  | DATAFRAME =>
      cases hfin : backend.final with
      | ok a =>
          simp [query_agent_ws, initialize_components, initialize_agent, create_agent,
            runAgentExecutor, CallbackManager.handlers, Except.map, hfin] at h
          obtain ⟨h1, h2⟩ := h
          subst h1; subst h2
          exact ⟨rfl, fun s hs => ⟨a, rfl, (Except.ok.inj hs).symm⟩,
            fun c hc => Except.noConfusion hc⟩
      | error c =>
          simp [query_agent_ws, initialize_components, initialize_agent, create_agent,
            runAgentExecutor, CallbackManager.handlers, Except.map, hfin] at h
          obtain ⟨h1, h2⟩ := h
          subst h1; subst h2
          refine ⟨rfl, fun s hs => Except.noConfusion hs, fun c2 hc => ?_⟩
          have hcc : c = c2 := ReasoningError.ReasoningFailure.inj (Except.error.inj hc)
          rw [hcc]
  | JSON =>
      by_cases ht : 1 < backend.time
      · simp [query_agent_ws, initialize_components, initialize_agent, create_agent,
          runAgentExecutor, CallbackManager.handlers, Except.map, ht] at h
        obtain ⟨h1, h2⟩ := h
        subst h1; subst h2
        exact ⟨rfl, fun s hs => Except.noConfusion hs,
          fun c hc => ReasoningError.noConfusion (Except.error.inj hc)⟩
      · cases hfin : backend.final with
        | ok a =>
            simp [query_agent_ws, initialize_components, initialize_agent, create_agent,
              runAgentExecutor, CallbackManager.handlers, Except.map, ht, hfin] at h
            obtain ⟨h1, h2⟩ := h
            subst h1; subst h2
            exact ⟨rfl, fun s hs => ⟨a, rfl, (Except.ok.inj hs).symm⟩,
              fun c hc => Except.noConfusion hc⟩
        | error c =>
            simp [query_agent_ws, initialize_components, initialize_agent, create_agent,
              runAgentExecutor, CallbackManager.handlers, Except.map, ht, hfin] at h
            obtain ⟨h1, h2⟩ := h
            subst h1; subst h2
            refine ⟨rfl, fun s hs => Except.noConfusion hs, fun c2 hc => ?_⟩
            have hcc : c = c2 := ReasoningError.ReasoningFailure.inj (Except.error.inj hc)
            rw [hcc]

/-- Claim C8, witness: at a concrete environment and backend the push-mode
entry point delivers the thoughts to the websocket handler and returns the
normalized final answer. -/
theorem c8_witness :
    [({ handler := StreamHandler.WSStreamThoughtsAndAnswerHandler, text := "t1" } : SinkEvent)]
      = sampleBackend.thoughts.map
        (fun t => { handler := StreamHandler.WSStreamThoughtsAndAnswerHandler, text := t }) ∧
    (∀ s, (Except.ok "ans" : Except ReasoningError String) = Except.ok s →
      ∃ a, sampleBackend.final = Except.ok a ∧ s = a.toStr) ∧
    (∀ c, (Except.ok "ans" : Except ReasoningError String)
        = Except.error (ReasoningError.ReasoningFailure c) →
      sampleBackend.final = Except.error c) :=
  c8_push_answer_and_thoughts sampleEnv sampleBackend "cmp-1" "q" "gpt-4"
    AgentKind.DATAFRAME
    [{ handler := StreamHandler.WSStreamThoughtsAndAnswerHandler, text := "t1" }]
    (Except.ok "ans") rfl

set_option maxRecDepth 8000 in
/-- Claim C6: for every query and every delivery mode, each reasoning
backend call in the effect trace executes exactly the fixed instructional
template prepended verbatim to the user's query — the template is a fixed
constant, not configurable per call — and the template contains the
multi-valued-cells guidance, the date guidance, the fixed apology string
and the single-string output instruction. -/
theorem c6_fixed_prompt_wrapper (env : Env) (backend : BackendBehavior)
    (comparison_id query model : String) (agent_kind : AgentKind) :
    (executedPrompts (query_agent env backend comparison_id query model agent_kind).1
      = match agent_kind with
        | AgentKind.OTHER _ => []
        | _ => [prompt_template ++ query]) ∧
    (executedPrompts (query_agent_ws env backend comparison_id query model agent_kind).1
      = match agent_kind with
        | AgentKind.OTHER _ => []
        | _ => [prompt_template ++ query]) ∧
    (executedPrompts (query_agent_async env backend comparison_id query model agent_kind).1
      = match agent_kind with
        | AgentKind.OTHER _ => []
        | _ => [prompt_template ++ query]) ∧
    (∃ s t, prompt_template = s ++ "\"Sorry!, I do not know.\"" ++ t) ∧
    (∃ s t, prompt_template
      = s ++ "The cells could contain multiple values and not just a single value." ++ t) ∧
    (∃ s t, prompt_template
      = s ++ "If there is a date in there you might need to parse it to find answers about the year or the month." ++ t) ∧
    (∃ s t, prompt_template = s ++ "Return all output as a string." ++ t) := by
  refine ⟨?_, ?_, ?_,
    ⟨"\n            This is a table of data extracted from the ORKG that represents a comparison of several research papers.\n            The rows are properties of the papers, and the columns are the papers (contributions) themselves.\n\n            The questions will need you to look into the values, sometimes across multiple columns.\n            The cells could contain multiple values and not just a single value.\n\n            If there is a date in there you might need to parse it to find answers about the year or the month.\n\n            If you do not know the answer, reply as follows:\n            ",
 "\n\n            Return all output as a string.\n\n            Lets think step by step.\n\n            Below is the query.\n            Query:\n            ", by rfl⟩,
    ⟨"\n            This is a table of data extracted from the ORKG that represents a comparison of several research papers.\n            The rows are properties of the papers, and the columns are the papers (contributions) themselves.\n\n            The questions will need you to look into the values, sometimes across multiple columns.\n            ",
 "\n\n            If there is a date in there you might need to parse it to find answers about the year or the month.\n\n            If you do not know the answer, reply as follows:\n            \"Sorry!, I do not know.\"\n\n            Return all output as a string.\n\n            Lets think step by step.\n\n            Below is the query.\n            Query:\n            ", by rfl⟩,
    ⟨"\n            This is a table of data extracted from the ORKG that represents a comparison of several research papers.\n            The rows are properties of the papers, and the columns are the papers (contributions) themselves.\n\n            The questions will need you to look into the values, sometimes across multiple columns.\n            The cells could contain multiple values and not just a single value.\n\n            ",
 "\n\n            If you do not know the answer, reply as follows:\n            \"Sorry!, I do not know.\"\n\n            Return all output as a string.\n\n            Lets think step by step.\n\n            Below is the query.\n            Query:\n            ", by rfl⟩,
    ⟨"\n            This is a table of data extracted from the ORKG that represents a comparison of several research papers.\n            The rows are properties of the papers, and the columns are the papers (contributions) themselves.\n\n            The questions will need you to look into the values, sometimes across multiple columns.\n            The cells could contain multiple values and not just a single value.\n\n            If there is a date in there you might need to parse it to find answers about the year or the month.\n\n            If you do not know the answer, reply as follows:\n            \"Sorry!, I do not know.\"\n\n            ",
 "\n\n            Lets think step by step.\n\n            Below is the query.\n            Query:\n            ", by rfl⟩⟩ <;>
  cases agent_kind <;> rfl


end Grizzly
